import Mathlib

/-
Verification of the Zentrafuge v8 response-orchestration core against its
natural-language specification.

The development shallow-embeds the Python modules
  backend/utils/emotion_parser.py
  backend/utils/memory_engine.py
  backend/utils/learning_data_structures.py
  backend/utils/realtime_learning_engine.py
  backend/utils/orchestrator.py
into Lean:
  - Python strings are Lean `String`s; `str.lower()` is modelled on the
    ASCII range (the lexicons and the inputs of interest are ASCII);
  - Python floats are ℚ (the arithmetic in the code is short chains of
    decimal constants, where float rounding plays no role in any claim);
  - Firestore documents and Python dicts are association lists
    `List (String × Value)`; a Firestore `update` merges fields, `get`
    with a default models `dict.get`;
  - fallible steps return `Except`/`Option`, and the `try/except`
    blocks of the code become explicit matches on those results.
-/

namespace Zentrafuge

/-! ## String helpers (models of the Python primitives used by the code) -/

/-- ASCII model of `str.lower` on one character: `A`–`Z` maps to `a`–`z`,
everything else is unchanged. -/
def lowerChar (c : Char) : Char :=
  if 65 ≤ c.toNat ∧ c.toNat ≤ 90 then Char.ofNat (c.toNat + 32) else c

/-- Model of Python `str.lower()` (ASCII range). -/
def pyLower (s : String) : String :=
  String.mk (s.data.map lowerChar)

/-- `listIsPre p l` : `p` is a prefix of `l` (model of startswith). -/
def listIsPre : List Char → List Char → Bool
  | [], _ => true
  | _ :: _, [] => false
  | a :: as, b :: bs => a == b && listIsPre as bs

/-- `listIsSub p l` : `p` occurs as a contiguous substring of `l`
(model of the Python `in` operator on strings). -/
def listIsSub (p : List Char) : List Char → Bool
  | [] => listIsPre p []
  | c :: cs => listIsPre p (c :: cs) || listIsSub p cs

/-- Python `needle in haystack` for strings. -/
def isSub (needle haystack : String) : Bool :=
  listIsSub needle.data haystack.data

/-- Whitespace characters recognised by Python `str.split()` (the ones that
occur in this code base). -/
def isWsChar (c : Char) : Bool :=
  c == ' ' || c == '\t' || c == '\n' || c == '\r'

/-- Worker for `pySplit`: accumulates the current word (reversed). -/
def splitWsAux : List Char → List Char → List String
  | [], acc => if acc.isEmpty then [] else [String.mk acc.reverse]
  | c :: cs, acc =>
    if isWsChar c then
      if acc.isEmpty then splitWsAux cs [] else String.mk acc.reverse :: splitWsAux cs []
    else splitWsAux cs (c :: acc)

/-- Model of Python `str.split()` with no argument: split on whitespace runs,
dropping empty fields. -/
def pySplit (s : String) : List String :=
  splitWsAux s.data []

/-- `len(set(a) & set(b))`: the number of distinct strings occurring in both
lists. -/
def interCount (a b : List String) : Nat :=
  ((a.dedup).filter (fun w => b.contains w)).length

/-- Python `s.count(c)` for a single character. -/
def countChar (c : Char) (s : String) : Nat :=
  (s.data.filter (fun d => d == c)).length

/-- Python `str.strip()`: remove leading and trailing whitespace. -/
def pyStrip (s : String) : String :=
  String.mk (((s.data.dropWhile isWsChar).reverse.dropWhile isWsChar).reverse)

/-- Python `min` on two numbers (kept computable on ℚ). -/
def qmin (a b : ℚ) : ℚ := if a ≤ b then a else b

/-- Python `max` on two numbers (kept computable on ℚ). -/
def qmax (a b : ℚ) : ℚ := if a ≤ b then b else a

/-! ## emotion_parser.py -/

/-- `TONE_INDICATORS` of emotion_parser.py, in source (dict-insertion) order. -/
def TONE_INDICATORS : List (String × List String) :=
  [("distressed", ["overwhelmed", "breaking", "can't handle", "falling apart", "drowning"]),
   ("weary", ["tired", "exhausted", "drained", "burnt out", "empty", "heavy"]),
   ("anxious", ["worried", "scared", "nervous", "panicking", "afraid", "stressed"]),
   ("frustrated", ["angry", "irritated", "fed up", "annoyed", "stuck", "blocked"]),
   ("sad", ["depressed", "down", "blue", "hopeless", "lonely", "isolated"]),
   ("reflective", ["thinking", "wondering", "processing", "contemplating", "considering"]),
   ("hopeful", ["better", "improving", "optimistic", "looking forward", "excited"]),
   ("grateful", ["thankful", "appreciative", "blessed", "fortunate", "grateful"]),
   ("calm", ["peaceful", "centered", "grounded", "stable", "balanced", "serene"]),
   ("curious", ["interested", "exploring", "learning", "discovering", "questioning"])]

/-- Number of indicator substrings of one tone category present in the text
(the per-tone `score` of `detect_primary_tone`). -/
def toneHits (text : String) (indicators : List String) : Nat :=
  (indicators.filter (fun ind => isSub ind text)).length

/-- The `tone_scores` dict of `detect_primary_tone`, as an ordered list. -/
def tone_scores (text : String) : List (String × Nat) :=
  TONE_INDICATORS.map (fun p => (p.1, toneHits text p.2))

/-- Python `max(d, key=d.get)` over an insertion-ordered dict: the first key
whose value is not exceeded later (a left fold keeping the current best and
replacing it only on a strictly greater value). -/
def pyArgmax (best : String × Nat) : List (String × Nat) → String × Nat
  | [] => best
  | q :: qs => pyArgmax (if q.2 > best.2 then q else best) qs

/-- `detect_primary_tone` of emotion_parser.py (its argument is already
lowercased by the caller `analyze_emotional_signature`). -/
def detect_primary_tone (text : String) : String :=
  let scores := tone_scores text
  if scores.all (fun p => p.2 == 0) then "neutral"
  else
    match scores with
    | [] => "neutral"
    | p :: ps => (pyArgmax p ps).1

/-- Spec-side argmax: the first entry of the list achieving the maximal
value, computed from the right (an earlier entry beats an equal later one). -/
def firstMax : List (String × Nat) → Option (String × Nat)
  | [] => none
  | p :: ps =>
    match firstMax ps with
    | none => some p
    | some q => some (if p.2 ≥ q.2 then p else q)

/-- Spec-side reading of `detect_primary_tone`: neutral when every category
scores zero, otherwise the earliest category with the highest score. -/
def firstMaxTone (text : String) : String :=
  let scores := tone_scores text
  if scores.all (fun p => p.2 == 0) then "neutral"
  else ((firstMax scores).map Prod.fst).getD "neutral"

/-- The `intensity_markers["high"]` intensifier lexicon of
`calculate_emotional_intensity`. -/
def INTENSITY_HIGH : List String :=
  ["extremely", "incredibly", "totally", "completely", "absolutely", "really really"]

/-- The profanity list of `calculate_emotional_intensity`. -/
def SWEAR_WORDS : List String :=
  ["damn", "shit", "fuck", "hell"]

/-- Is `c` an ASCII uppercase letter (the `[A-Z]` character class)? -/
def isUpperAZ (c : Char) : Bool :=
  decide (65 ≤ c.toNat ∧ c.toNat ≤ 90)

/-- `re.findall(r'[A-Z]{2,}', text)` is nonempty iff two consecutive ASCII
uppercase letters occur. -/
def hasUpperRun : List Char → Bool
  | c1 :: c2 :: rest => (isUpperAZ c1 && isUpperAZ c2) || hasUpperRun (c2 :: rest)
  | _ => false

/-- `re.findall(r'(.)\1{2,}', text)` is nonempty iff some character other
than a newline occurs three times in a row (`.` does not match a newline). -/
def hasTripleRepeat : List Char → Bool
  | c1 :: c2 :: c3 :: rest =>
      (c1 == c2 && c2 == c3 && !(c1 == '\n')) || hasTripleRepeat (c2 :: c3 :: rest)
  | _ => false

/-- `calculate_emotional_intensity` of emotion_parser.py: a 0.3 baseline plus
fixed increments, clamped above by 1.0. Its argument is the already
lowercased text when called from `analyze_emotional_signature`. -/
def calculate_emotional_intensity (text : String) : ℚ :=
  let i0 : ℚ := 3/10
  let i1 := if INTENSITY_HIGH.any (fun m => isSub m text) then i0 + 3/10 else i0
  let i2 := if hasUpperRun text.data then i1 + 2/10 else i1
  let excl := countChar '!' text
  let i3 := if excl > 0 then i2 + qmin (2/10) ((excl : ℚ) * (1/10)) else i2
  let i4 := if hasTripleRepeat text.data then i3 + 1/10 else i3
  let i5 := if SWEAR_WORDS.any (fun w => isSub w text) then i4 + 2/10 else i4
  qmin 1 i5

/-- The `primary_tone` field computed by `analyze_emotional_signature`:
the text is lowercased first (`text_lower = text.lower()`). -/
def analyze_primary_tone (text : String) : String :=
  detect_primary_tone (pyLower text)

/-- The `intensity` field computed by `analyze_emotional_signature`:
`calculate_emotional_intensity` applied to the lowercased text. -/
def analyze_intensity (text : String) : ℚ :=
  calculate_emotional_intensity (pyLower text)

/-! ## memory_engine.py -/

/-- The `theme_keywords` dict of `extract_conversation_themes`, in source
order. -/
def theme_keywords : List (String × List String) :=
  [("work_stress", ["job", "work", "boss", "career", "workplace", "colleagues"]),
   ("relationships", ["relationship", "partner", "friend", "family", "dating", "love"]),
   ("anxiety", ["anxious", "worry", "scared", "nervous", "panic", "stress"]),
   ("depression", ["sad", "depressed", "hopeless", "empty", "lonely", "down"]),
   ("growth", ["learning", "growing", "changing", "improving", "progress", "development"]),
   ("health", ["tired", "sleep", "energy", "exercise", "health", "physical"]),
   ("creativity", ["creative", "art", "writing", "music", "project", "inspiration"]),
   ("identity", ["who am I", "purpose", "meaning", "values", "identity", "self"])]

/-- `extract_conversation_themes` of memory_engine.py: themes whose keyword
lists hit the lowercased concatenation of the two texts, first three. -/
def extract_conversation_themes (user_message cael_reply : String) : List String :=
  let text := pyLower (user_message ++ " " ++ cael_reply)
  ((theme_keywords.filter (fun p => p.2.any (fun k => isSub k text))).map Prod.fst).take 3

/-- `extract_themes_from_text` of memory_engine.py. -/
def extract_themes_from_text (text : String) : List String :=
  extract_conversation_themes text ""

/-- The `emotional_keywords` dict of `extract_emotional_keywords`, in source
order. -/
def emotional_keywords : List (String × List String) :=
  [("sad", ["sad", "depressed", "down", "blue", "crying"]),
   ("anxious", ["anxious", "worried", "scared", "nervous", "panic"]),
   ("angry", ["angry", "mad", "frustrated", "irritated", "furious"]),
   ("happy", ["happy", "joyful", "excited", "glad", "cheerful"]),
   ("tired", ["tired", "exhausted", "drained", "weary", "burnout"])]

/-- `extract_emotional_keywords` of memory_engine.py: the first emotion whose
keyword list hits the lowercased text, or the empty string. -/
def extract_emotional_keywords (text : String) : String :=
  let tl := pyLower text
  match emotional_keywords.find? (fun p => p.2.any (fun k => isSub k tl)) with
  | some p => p.1
  | none => ""

/-- The `ConversationMemory` record of memory_engine.py, restricted to the
fields the relevance pipeline reads. The stored ISO `timestamp` only ever
enters the pipeline through `calculate_days_since_timestamp` and
`format_time_context` as a whole number of days before now, so it is
abstracted to that number (`daysAgo`). -/
structure ConversationMemory where
  user_message : String
  emotional_tone : String
  themes : List String
  daysAgo : Nat
deriving DecidableEq

/-- `calculate_relevance_score` of memory_engine.py, the sequential sum the
code performs. Its `current_input` argument is already lowercased by the
caller `find_relevant_memories`. -/
def calculate_relevance_score (memory : ConversationMemory) (current_input : String) : ℚ :=
  let user_words := pySplit (pyLower memory.user_message)
  let current_words := pySplit current_input
  let keyword_overlap := interCount user_words current_words
  let s1 := (0 : ℚ) + (keyword_overlap : ℚ) * (3/10)
  let input_themes := extract_themes_from_text current_input
  let theme_overlap := interCount memory.themes input_themes
  let s2 := s1 + (theme_overlap : ℚ) * (5/10)
  let s3 := if memory.daysAgo ≤ 1 then s2 + 3/10
            else if memory.daysAgo ≤ 7 then s2 + 1/10 else s2
  let current_emotion := extract_emotional_keywords current_input
  let memory_emotion := extract_emotional_keywords memory.user_message
  if current_emotion ≠ "" ∧ memory_emotion ≠ "" ∧ current_emotion = memory_emotion
  then s3 + 4/10 else s3

/-- Spec-side `keyword_overlap`: the size of the intersection of the
whitespace-tokenized word sets of the two messages. -/
def keyword_overlap_spec (memory : ConversationMemory) (current_input : String) : Nat :=
  interCount (pySplit (pyLower memory.user_message)) (pySplit current_input)

/-- Spec-side `theme_overlap`: the intersection size of the theme-tag sets. -/
def theme_overlap_spec (memory : ConversationMemory) (current_input : String) : Nat :=
  interCount memory.themes (extract_themes_from_text current_input)

/-- Spec-side recency bonus: +0.3 if at most 1 day old, +0.1 if at most
7 days, else 0. -/
def recency_bonus_spec (memory : ConversationMemory) : ℚ :=
  if memory.daysAgo ≤ 1 then 3/10 else if memory.daysAgo ≤ 7 then 1/10 else 0

/-- Spec-side emotion bonus: +0.4 when both texts have a dominant emotion
keyword and it is the same one. -/
def emotion_bonus_spec (memory : ConversationMemory) (current_input : String) : ℚ :=
  if extract_emotional_keywords current_input ≠ "" ∧
     extract_emotional_keywords memory.user_message ≠ "" ∧
     extract_emotional_keywords current_input = extract_emotional_keywords memory.user_message
  then 4/10 else 0

/-- The relevance score as the specification states it: a weighted sum of
the four components. -/
def relevance_formula (memory : ConversationMemory) (current_input : String) : ℚ :=
  (3/10) * (keyword_overlap_spec memory current_input : ℚ)
    + (5/10) * (theme_overlap_spec memory current_input : ℚ)
    + recency_bonus_spec memory
    + emotion_bonus_spec memory current_input

/-- The descending-score comparison `find_relevant_memories` sorts by. -/
def scoreGE (a b : ConversationMemory × ℚ) : Prop := b.2 ≤ a.2

instance : DecidableRel scoreGE :=
  fun a b => inferInstanceAs (Decidable (b.2 ≤ a.2))

instance : IsTotal (ConversationMemory × ℚ) scoreGE :=
  ⟨fun a b => le_total b.2 a.2⟩

instance : IsTrans (ConversationMemory × ℚ) scoreGE :=
  ⟨fun _ _ _ h1 h2 => le_trans h2 h1⟩

/-- `find_relevant_memories` of memory_engine.py: score every memory against
the lowercased input, keep the strictly positive scores, sort them by score
descending (Python `list.sort` is stable; insertion sort over `scoreGE`
matches it), and return the first `limit` memories. -/
def find_relevant_memories (memories : List ConversationMemory) (current_input : String)
    (limit : Nat) : List ConversationMemory :=
  let current_input_lower := pyLower current_input
  let scored := (memories.map
      (fun m => (m, calculate_relevance_score m current_input_lower))).filter
      (fun p => 0 < p.2)
  ((scored.insertionSort scoreGE).take limit).map Prod.fst

/-- `format_time_context` of memory_engine.py, on the days-before-now
abstraction of the timestamp. -/
def format_time_context (daysAgo : Nat) : String :=
  if daysAgo = 0 then "Earlier today"
  else if daysAgo = 1 then "Yesterday"
  else if daysAgo < 7 then toString daysAgo ++ " days ago"
  else toString (daysAgo / 7) ++ " weeks ago"

/-- `format_memory_recall` of memory_engine.py. -/
def format_memory_recall (memories : List ConversationMemory) : String :=
  if memories.isEmpty then
    "No relevant memories found - this feels like a fresh conversation."
  else
    let parts := memories.map (fun m =>
      let time_context := format_time_context m.daysAgo
      let emotional_context :=
        if m.emotional_tone ≠ "neutral" then "(feeling " ++ m.emotional_tone ++ ")" else ""
      time_context ++ ", you shared: \"" ++ String.mk (m.user_message.data.take 100)
        ++ "...\" " ++ emotional_context)
    "Relevant memories:\n" ++ String.intercalate "\n" parts

/-- The outcome of `get_user_memories`: the stored recent memories, or a
store failure (which that function swallows into an empty list; the `err`
constructor models an exception escaping from the query itself before that
handler, caught by `retrieve_relevant_memories`). -/
inductive StoreRead where
  | ok (memories : List ConversationMemory)
  | err (e : String)
deriving DecidableEq

/-- `retrieve_relevant_memories` of memory_engine.py: the string the
orchestrator receives. `firestorePresent` models `firestore_client` being
non-None; `store` the result of the recent-memories query. -/
def retrieve_relevant_memories (firestorePresent : Bool) (store : StoreRead)
    (current_input : String) : String :=
  if !firestorePresent then "Memory system offline - responding in present moment"
  else
    match store with
    | .err _ => "Memory retrieval error - responding authentically to current moment"
    | .ok memories => format_memory_recall (find_relevant_memories memories current_input 3)

/-! ## Firestore documents and Python dicts -/

/-- A dynamically typed Python/Firestore value as this code stores them:
strings, numbers (floats and ints merged into ℚ; Python booleans are also
numbers for arithmetic), `None`, and the server-timestamp sentinel. -/
inductive Value where
  | s (v : String)
  | num (v : ℚ)
  | b (v : Bool)
  | null
  | serverTs
deriving DecidableEq

/-- A document / dict: an association list from field names to values. -/
abbrev Doc := List (String × Value)

/-- Remove a field (helper for the merge semantics of an update). -/
def dremove (d : Doc) (k : String) : Doc :=
  d.filter (fun p => !(p.1 == k))

/-- Set one field, overwriting any existing value (Firestore `update` on one
key; also a Python dict item assignment). -/
def dset (d : Doc) (k : String) (v : Value) : Doc :=
  (k, v) :: dremove d k

/-- Merge a list of fields into a document (Firestore `doc_ref.update(...)`). -/
def dsetAll (d : Doc) (kvs : List (String × Value)) : Doc :=
  kvs.foldl (fun acc p => dset acc p.1 p.2) d

/-- Python `d.get(k, default)`: the stored value when the key is present
(even when that value is `None`), the default otherwise. -/
def dget (d : Doc) (k : String) (dflt : Value) : Value :=
  match d.lookup k with
  | some v => v
  | none => dflt

/-- The numeric reading Python arithmetic gives a value: numbers are
themselves, booleans coerce to 0/1, and strings, `None` and sentinels have
none (using one in arithmetic raises `TypeError`). -/
def numOf : Value → Option ℚ
  | .num v => some v
  | .b v => some (if v then 1 else 0)
  | _ => none

/-! ## learning_data_structures.py -/

/-- `calculate_resonance_score` of learning_data_structures.py. -/
def calculate_resonance_score (time_to_reply emotional_shift : ℚ) (followup_depth : ℚ)
    (user_feedback : Option String) : ℚ :=
  let timing_score := qmin 1 (qmax (2/10) ((300 - time_to_reply) / 300))
  let emotion_score := qmax 0 (qmin 1 ((emotional_shift + 1) / 2))
  let depth_score := followup_depth / 5
  let feedback_multiplier : ℚ :=
    if user_feedback = some "perfect" then 12/10
    else if user_feedback = some "helpful" then 11/10
    else if user_feedback = some "not_quite" then 7/10
    else if user_feedback = some "unhelpful" then 3/10
    else 1
  let resonance := (timing_score * (3/10) + emotion_score * (4/10) + depth_score * (3/10))
      * feedback_multiplier
  qmin 1 (qmax 0 resonance)

/-- The `timing_score` line of `calculate_resonance_score` on its own. -/
def timing_score (time_to_reply : ℚ) : ℚ :=
  qmin 1 (qmax (2/10) ((300 - time_to_reply) / 300))

/-- The `emotion_score` line of `calculate_resonance_score` on its own. -/
def emotion_score (emotional_shift : ℚ) : ℚ :=
  qmax 0 (qmin 1 ((emotional_shift + 1) / 2))

/-- `create_interaction_signal(...).to_dict()`: the document
`capture_interaction_start` writes for a new signal. `message_id` and the
ISO timestamp come from `datetime.now()` and are passed in (`nowId`,
`nowIso`). Note the document has no `emotional_shift` field. -/
def create_interaction_signal (user_id nowId nowIso user_message : String)
    (emotional_analysis_before : Doc) (memory_used : Bool) (response_style : String) : Doc :=
  [("user_id", .s user_id),
   ("message_id", .s (user_id ++ "_" ++ nowId)),
   ("timestamp", .s nowIso),
   ("user_message", .s user_message),
   ("emotional_tone_before", dget emotional_analysis_before "primary_emotion" (.s "neutral")),
   ("intensity_before", dget emotional_analysis_before "intensity" (.num (1/2))),
   ("cael_response", .s ""),
   ("memory_recalled", .b memory_used),
   ("memory_type", .null),
   ("response_style", .s response_style),
   ("time_to_reply", .null),
   ("emotional_tone_after", .null),
   ("intensity_after", .null),
   ("followup_depth", .null),
   ("resonance_score", .null),
   ("user_feedback", .null)]

/-- An interaction signal as `_calculate_adaptive_strategy` and
`analyze_user_segment` read it back: only the fields they touch. -/
structure InteractionSignalR where
  emotional_tone_before : String
  resonance_score : Option ℚ
deriving DecidableEq

/-- A stored user preference as `_calculate_adaptive_strategy` reads it. -/
structure UserPreferenceR where
  preference_type : String
  preference_value : String
  confidence : ℚ
deriving DecidableEq

/-- `analyze_user_segment` of learning_data_structures.py. -/
def analyze_user_segment (interaction_history : List InteractionSignalR) : String :=
  if interaction_history.isEmpty then "new_user"
  else
    let emotional_themes :=
      ((interaction_history.reverse.take 10).reverse).map (·.emotional_tone_before)
    if emotional_themes.contains "overwhelmed" ∧ emotional_themes.contains "exhausted" then
      "burnout_pattern"
    else if emotional_themes.contains "anxious" ∧ emotional_themes.contains "scattered" then
      "anxiety_pattern"
    else if emotional_themes.contains "sad" ∧ emotional_themes.contains "lonely" then
      "depression_pattern"
    else if emotional_themes.contains "frustrated" ∧ emotional_themes.contains "stuck" then
      "transition_pattern"
    else "general_support"

/-! ## realtime_learning_engine.py -/

/-- The `depth_indicators` dict of `_analyze_message_depth`, in source order. -/
def depth_indicators : List (String × List String) :=
  [("shallow", ["ok", "fine", "good", "thanks", "yes", "no"]),
   ("medium", ["feel", "think", "maybe", "sometimes", "usually"]),
   ("deep", ["realize", "understand", "remember", "afraid", "hope"]),
   ("very_deep", ["vulnerable", "scared", "ashamed", "grateful", "healing"]),
   ("profound", ["transform", "breakthrough", "forgive", "accept", "love"])]

/-- `_analyze_message_depth` of realtime_learning_engine.py: a 1–5 score from
the depth lexicon over the lowercased reply (shallow hits leave the score at
its initial 1), bumped by one for messages longer than 200 characters. -/
def analyze_message_depth (message : String) : Nat :=
  if message = "" then 1
  else
    let ml := pyLower message
    let hit := fun (level : String) =>
      match depth_indicators.lookup level with
      | some inds => inds.any (fun i => isSub i ml)
      | none => false
    let d1 := 1
    let d2 := if hit "medium" then max d1 2 else d1
    let d3 := if hit "deep" then max d2 3 else d2
    let d4 := if hit "very_deep" then max d3 4 else d3
    let d5 := if hit "profound" then 5 else d4
    if message.data.length > 200 then min 5 (d5 + 1) else d5

/-- The positive-emotion polarity list of `_calculate_emotional_shift`. -/
def positive_emotions : List String :=
  ["joy", "peace", "gratitude", "hope", "love", "calm"]

/-- The negative-emotion polarity list of `_calculate_emotional_shift`. -/
def negative_emotions : List String :=
  ["anxiety", "sadness", "anger", "fear", "shame", "overwhelmed"]

/-- `_calculate_emotional_shift` of realtime_learning_engine.py. A missing
signal document yields 0.0; a `TypeError` from non-numeric intensities is
swallowed by the method's own `except` into 0.0. -/
def calculate_emotional_shift (signalDoc : Option Doc) (emotional_analysis_after : Doc) : ℚ :=
  match signalDoc with
  | none => 0
  | some d =>
    let intensity_before := numOf (dget d "intensity_before" (.num (1/2)))
    let intensity_after := numOf (dget emotional_analysis_after "intensity" (.num (1/2)))
    let emotion_after := dget emotional_analysis_after "primary_emotion" (.s "neutral")
    match emotion_after with
    | .s e =>
      if positive_emotions.contains e then
        match intensity_after, intensity_before with
        | some a, some b => a - b
        | _, _ => 0
      else if negative_emotions.contains e then
        match intensity_after, intensity_before with
        | some a, some b => b - a
        | _, _ => 0
      else 0
    | _ => 0

/-- `capture_user_reply` of realtime_learning_engine.py. The store is
represented by the addressed signal document (`none` = unknown signal id, on
which the Firestore `update` raises and the method's `except` returns
`None`). Returns the resonance score the caller sees and the post-state of
the document. -/
def capture_user_reply (learning_enabled : Bool) (signalDoc : Option Doc)
    (reply_message : String) (emotional_analysis_after : Doc) (time_since_response : ℚ) :
    Option ℚ × Option Doc :=
  if !learning_enabled then (none, signalDoc)
  else
    let followup_depth := analyze_message_depth reply_message
    let emotional_shift := calculate_emotional_shift signalDoc emotional_analysis_after
    let resonance_score :=
      calculate_resonance_score time_since_response emotional_shift (followup_depth : ℚ) none
    match signalDoc with
    | none => (none, none)
    | some d =>
      let d1 := dsetAll d
        [("time_to_reply", .num time_since_response),
         ("emotional_tone_after", dget emotional_analysis_after "primary_emotion" .null),
         ("intensity_after", dget emotional_analysis_after "intensity" .null),
         ("followup_depth", .num (followup_depth : ℚ)),
         ("resonance_score", .num resonance_score),
         ("reply_timestamp", .serverTs)]
      (some resonance_score, some d1)

/-- `capture_explicit_feedback` of realtime_learning_engine.py. The first
`update` writes the feedback fields (raising on an unknown signal id →
`False` with no state change); the recomputation then reads
`time_to_reply`/`emotional_shift`/`followup_depth` back with defaults 60/0/3
— a `None` stored in one of them raises `TypeError`, caught by the method's
`except` after the first update already persisted. Feedback `perfect` and
`unhelpful` then call the undefined `_update_user_preferences`, whose
`AttributeError` is likewise caught after the resonance update persisted.
Returns the success flag the caller sees and the post-state. -/
def capture_explicit_feedback (learning_enabled : Bool) (signalDoc : Option Doc)
    (feedback_type : String) (feedback_details : Option String) : Bool × Option Doc :=
  if !learning_enabled then (false, signalDoc)
  else
    match signalDoc with
    | none => (false, none)
    | some d =>
      let update_data :=
        [("user_feedback", Value.s feedback_type), ("feedback_timestamp", Value.serverTs)]
          ++ (match feedback_details with
              | some det => if det ≠ "" then [("feedback_details", Value.s det)] else []
              | none => [])
      let d1 := dsetAll d update_data
      match numOf (dget d1 "time_to_reply" (.num 60)),
            numOf (dget d1 "emotional_shift" (.num 0)),
            numOf (dget d1 "followup_depth" (.num 3)) with
      | some t, some sh, some fd =>
        let new_resonance := calculate_resonance_score t sh fd (some feedback_type)
        let d2 := dset d1 "resonance_score" (.num new_resonance)
        if feedback_type = "perfect" ∨ feedback_type = "unhelpful" then
          (false, some d2)
        else (true, some d2)
      | _, _, _ => (false, some d1)

/-- The stored resonance score of a signal document. -/
def resOf (d : Doc) : Option Value := d.lookup "resonance_score"

/-- The stored feedback label of a signal document. -/
def fbOf (d : Doc) : Option Value := d.lookup "user_feedback"

/-- The three fields the feedback recomputation reads back with the defaults
of the code (`60`, `0`, `3`), as numbers for Python arithmetic. -/
def baseReads (d : Doc) : Option ℚ × Option ℚ × Option ℚ :=
  (numOf (dget d "time_to_reply" (.num 60)),
   numOf (dget d "emotional_shift" (.num 0)),
   numOf (dget d "followup_depth" (.num 3)))

/-- The signal document after one `capture_explicit_feedback` call on an
existing document (on an existing document the call always yields a
post-state, so the default is never taken). -/
def afterFeedback (d : Doc) (fb : String) (det : Option String) : Doc :=
  ((capture_explicit_feedback true (some d) fb det).2).getD d

/-- The signal document after one `capture_user_reply` call on an existing
document. -/
def afterReply (d : Doc) (reply : String) (ea : Doc) (t : ℚ) : Doc :=
  ((capture_user_reply true (some d) reply ea t).2).getD d

/-- `_get_recent_signals`: the stub in the source always returns the empty
list. -/
def get_recent_signals : Except String (List InteractionSignalR) :=
  .ok []

/-- `_get_user_preferences`: the stub in the source always returns the empty
list. -/
def get_user_preferences : Except String (List UserPreferenceR) :=
  .ok []

/-- `self._get_resonance_patterns(...)` as called by `get_adaptive_strategy`:
the method is nowhere defined in `RealtimeLearningEngine`, so the call
raises `AttributeError`. -/
def get_resonance_patterns : Except String (List Unit) :=
  .error "AttributeError: RealtimeLearningEngine has no attribute _get_resonance_patterns"

/-- `_calculate_adaptive_strategy` of realtime_learning_engine.py. The
`patterns` and `context` parameters are accepted and unused, as in the
source. -/
def calculate_adaptive_strategy (recent_signals : List InteractionSignalR)
    (preferences : List UserPreferenceR) (patterns : List Unit) : Doc :=
  let strategy : Doc :=
    [("approach", .s "gentle_grounding"),
     ("memory_use", .s "moderate"),
     ("response_style", .s "warm_validation"),
     ("message_length", .s "medium"),
     ("confidence", .num (7/10))]
  let strategy :=
    if recent_signals.isEmpty then strategy
    else
      let avg := (recent_signals.map (fun s => s.resonance_score.getD (1/2))).sum
          / (recent_signals.length : ℚ)
      if avg > 8/10 then dset strategy "confidence" (.num (9/10))
      else if avg < 4/10 then
        dset (dset strategy "approach" (.s "gentle_exploration")) "confidence" (.num (6/10))
      else strategy
  let _ := patterns
  preferences.foldl (fun st pref =>
    if pref.preference_type = "tone" ∧ pref.confidence > 8/10 then
      let st1 := dset st "response_style" (.s pref.preference_value)
      dset st1 "confidence"
        (.num (qmin 1 ((numOf (dget st1 "confidence" (.num 0))).getD 0 + 1/10)))
    else st) strategy

/-- `get_adaptive_strategy` of realtime_learning_engine.py. With learning
disabled it returns `{'strategy': 'default', 'confidence': 0.5}` directly;
with learning enabled the body runs until the `_get_resonance_patterns`
call raises, and the `except Exception` handler returns the same dict. -/
def get_adaptive_strategy (learning_enabled : Bool) : Doc :=
  if !learning_enabled then [("strategy", .s "default"), ("confidence", .num (1/2))]
  else
    let body : Except String Doc := do
      let recent ← get_recent_signals
      let prefs ← get_user_preferences
      let _seg := analyze_user_segment recent
      let pats ← get_resonance_patterns
      pure (calculate_adaptive_strategy recent prefs pats)
    match body with
    | .ok s => s
    | .error _ => [("strategy", .s "default"), ("confidence", .num (1/2))]

/-! ## orchestrator.py -/

/-- The bare string `orchestrate_response` returns when the OpenAI client is
not configured. -/
def configApology : String :=
  "I'm experiencing a configuration issue. Please check back in a moment while we resolve this."

/-- The fixed apology of the graceful-fallback object (the mojibake dash is
in the source). -/
def fallbackApology : String :=
  "I'm here with you, but something went wrong on my side. You're not alone â€” let's try again in a moment."

/-- The literal `orchestrate_response` compares `memory_recall` against for
its `memory_used` flag. (The retrieval failure string actually produced is
the longer "Memory temporarily unavailable - responding in present moment".) -/
def memory_unavailable_lit : String := "Memory temporarily unavailable"

/-- The structured response object of `orchestrate_response`. `signal_id`,
`strategy_used` and `confidence` can be `None` in the Python dict, hence the
`Option`s. -/
structure OrchObj where
  response : String
  signal_id : Option String
  strategy_used : Option String
  confidence : Option ℚ
  memory_used : Bool
  learning_enabled : Bool
deriving DecidableEq

/-- What `orchestrate_response` hands back to its caller: the structured
object, or (on the unconfigured-client path) a bare string. -/
inductive OrchResult where
  | plain (s : String)
  | obj (r : OrchObj)
deriving DecidableEq

/-- Does the result carry the structured object? -/
def OrchResult.isObj : OrchResult → Bool
  | .plain _ => false
  | .obj _ => true

/-- The `memory_used` field of a structured result, when there is one. -/
def OrchResult.memoryUsed : OrchResult → Option Bool
  | .plain _ => none
  | .obj r => some r.memory_used

/-- How the memory-retrieval `try` block of `orchestrate_response` ends:
normally (with the store read it saw), with the `ImportError` handler, or
with the generic handler for an exception escaping the retrieval. -/
inductive MemOutcome where
  | ok (store : StoreRead)
  | importError
  | raised
deriving DecidableEq

/-- The ambient state `orchestrate_response` runs against: whether the
OpenAI client was configured, whether a Firestore client was passed (which
is what enables the learning engine), how memory retrieval went, the
generative call's outcome, and the id `capture_interaction_start` mints. -/
structure OrchEnv where
  clientConfigured : Bool
  firestorePresent : Bool
  memOutcome : MemOutcome
  llm : Except String String
  signalSeed : String

/-- The graceful-fallback object of the outer `except` handler of
`orchestrate_response`. -/
def fallbackObj : OrchObj :=
  { response := fallbackApology, signal_id := none, strategy_used := some "fallback",
    confidence := some (1/2), memory_used := false, learning_enabled := false }

/-- The `memory_recall` string as `orchestrate_response` computes it (its
`try` block around `retrieve_relevant_memories` and the two handlers). -/
def orchestrate_memory_recall (env : OrchEnv) (user_input : String) : String :=
  match env.memOutcome with
  | .importError => "Memory system initializing - responding in present moment"
  | .raised => "Memory temporarily unavailable - responding in present moment"
  | .ok store => retrieve_relevant_memories env.firestorePresent store user_input

/-- The structured dict of the success path of `orchestrate_response`. The
code computes `memory_recall`, `signal_id` and `strategy` before the client
check and the generative call, but those values only reach the caller
through this object, so they are factored into it. -/
def orchestrate_success_obj (env : OrchEnv) (user_input raw : String) : OrchObj :=
  let memory_recall := orchestrate_memory_recall env user_input
  let learning_eng := env.firestorePresent
  let signal_id : Option String := if learning_eng then some env.signalSeed else none
  let strategy : Option Doc :=
    if learning_eng then some (get_adaptive_strategy true) else none
  let raw_reply := pyStrip raw
  let memory_used :=
    !(memory_recall == "") && !(memory_recall == memory_unavailable_lit)
  { response := raw_reply,
    signal_id := signal_id,
    strategy_used :=
      match strategy with
      | none => some "standard"
      | some st =>
        match st.lookup "approach" with
        | some (.s a) => some a
        | _ => none,
    confidence :=
      match strategy with
      | none => some (7/10)
      | some st => numOf (dget st "confidence" .null),
    memory_used := memory_used,
    learning_enabled := learning_eng }

/-- `orchestrate_response` of orchestrator.py. The emotion-parsing step only
feeds the prompt text and the stored signal document, never the returned
metadata, and the prompt string itself only enters the opaque generative
call, so neither is tracked here. An `.error` generative outcome is the
exception reaching the outer `except` handler, which returns the graceful
fallback object. -/
def orchestrate_response (env : OrchEnv) (user_input : String) : OrchResult :=
  if !env.clientConfigured then
    .plain configApology
  else
    match env.llm with
    | .error _ => .obj fallbackObj
    | .ok raw => .obj (orchestrate_success_obj env user_input raw)

/-! ## Concrete scenario data -/

/-- The message of the specification's pipeline scenario. -/
def scenario_message : String := "I feel really anxious about work today"

/-- Both clients configured, no stored memories (the no-history scenario),
generative call succeeds. -/
def envScenario : OrchEnv :=
  { clientConfigured := true, firestorePresent := true, memOutcome := .ok (.ok []),
    llm := .ok "resp", signalSeed := "sig" }

/-- The OpenAI client is unconfigured (`OPENAI_API_KEY` missing). -/
def envNoClient : OrchEnv :=
  { clientConfigured := false, firestorePresent := true, memOutcome := .ok (.ok []),
    llm := .error "AuthenticationError", signalSeed := "sig" }

/-- The generative call raises. -/
def envLlmFail : OrchEnv :=
  { clientConfigured := true, firestorePresent := true, memOutcome := .ok (.ok []),
    llm := .error "APIError", signalSeed := "sig" }

/-- A neutral post-reply emotional analysis dict. -/
def eaNeutral : Doc := [("primary_emotion", .s "neutral"), ("intensity", .num (1/2))]

/-- A freshly started signal document for the capture-reply scenario. -/
def signalStarted : Doc :=
  create_interaction_signal "u1" "1700000000" "2024-01-01T00:00:00" "how are you"
    eaNeutral false "adaptive"

end Zentrafuge
namespace Zentrafuge

/-! ## Helper lemmas -/

/-- The left fold of `max(d, key=d.get)` keeps the first entry achieving the
running maximum: related to the right-to-left `firstMax`. -/
theorem pyArgmax_eq_firstMax (best : String × Nat) (l : List (String × Nat)) :
    pyArgmax best l = match firstMax l with
      | none => best
      | some q => if q.2 > best.2 then q else best := by
  induction l generalizing best with
  | nil => rfl
  | cons q qs ih =>
    simp only [pyArgmax, firstMax]
    cases hq : firstMax qs with
    | none => simp [ih, hq]
    | some r =>
      rw [ih]
      rw [hq]
      by_cases h1 : q.2 > best.2 <;> by_cases h2 : q.2 ≥ r.2 <;>
        by_cases h3 : r.2 > best.2 <;>
        simp [h1, h2, h3] <;> omega

/-- `firstMax` returns a member of the list achieving the maximal value. -/
theorem firstMax_mem_max (l : List (String × Nat)) (q : String × Nat) (h : firstMax l = some q) :
    q ∈ l ∧ ∀ p ∈ l, p.2 ≤ q.2 := by
  induction l generalizing q with
  | nil => simp [firstMax] at h
  | cons p ps ih =>
    rw [firstMax] at h
    cases hq : firstMax ps with
    | none =>
      rw [hq] at h
      cases ps with
      | nil =>
        simp at h
        subst h
        simp
      | cons r rs => simp [firstMax] at hq; cases hr : firstMax rs <;> simp [hr] at hq
    | some r =>
      rw [hq] at h
      simp only [Option.some.injEq] at h
      obtain ⟨hmem, hmax⟩ := ih r hq
      by_cases hc : p.2 ≥ r.2 <;> simp [hc] at h <;> subst h
      · refine ⟨by simp, ?_⟩
        intro x hx
        rcases List.mem_cons.mp hx with rfl | hx
        · exact le_refl _
        · exact le_trans (hmax x hx) hc
      · refine ⟨List.mem_cons_of_mem _ hmem, ?_⟩
        intro x hx
        rcases List.mem_cons.mp hx with rfl | hx
        · omega
        · exact hmax x hx

/-- `firstMax` of a nonempty list is `some`. -/
theorem firstMax_isSome (l : List (String × Nat)) (h : l ≠ []) : (firstMax l).isSome := by
  cases l with
  | nil => simp at h
  | cons p ps =>
    rw [firstMax]
    cases firstMax ps <;> simp

/-- The code's tie-breaking argmax agrees with the earliest-maximum reading. -/
theorem detect_primary_tone_eq_firstMaxTone (text : String) :
    detect_primary_tone text = firstMaxTone text := by
  unfold detect_primary_tone firstMaxTone
  cases hs : tone_scores text with
  | nil => simp
  | cons p ps =>
    by_cases hz : (p :: ps).all (fun r => r.2 == 0)
    · simp [hz]
    · simp only [hz, if_false]
      rw [pyArgmax_eq_firstMax]
      rw [firstMax]
      cases hq : firstMax ps with
      | none => simp
      | some r =>
        by_cases hc : r.2 > p.2 <;> by_cases hd : p.2 ≥ r.2 <;> simp [hc, hd] <;> omega

/-- `Char.ofNat` at a valid code point round-trips through `toNat`. -/
theorem char_toNat_ofNat (n : Nat) (h : n.isValidChar) : (Char.ofNat n).toNat = n := by
  simp [Char.ofNat, h, Char.toNat, Char.ofNatAux, UInt32.toNat, BitVec.toNat_ofNatLt]

/-- A lowercased character is never an ASCII uppercase letter. -/
theorem isUpperAZ_lowerChar (c : Char) : isUpperAZ (lowerChar c) = false := by
  rw [lowerChar]
  by_cases h : 65 ≤ c.toNat ∧ c.toNat ≤ 90
  · rw [if_pos h]
    have hv : (c.toNat + 32).isValidChar := Or.inl (by omega)
    rw [isUpperAZ]
    rw [char_toNat_ofNat _ hv]
    simp only [decide_eq_false_iff_not]
    omega
  · rw [if_neg h]
    rw [isUpperAZ]
    simp only [decide_eq_false_iff_not]
    exact h

/-- A lowercased text has no run of two ASCII uppercase letters, so the
`[A-Z]{2,}` intensity marker can never fire after `text.lower()`. -/
theorem hasUpperRun_map_lower (l : List Char) : hasUpperRun (l.map lowerChar) = false := by
  induction l with
  | nil => rfl
  | cons c l ih =>
    cases l with
    | nil => rfl
    | cons c2 l2 =>
      simp only [List.map, hasUpperRun, isUpperAZ_lowerChar, Bool.false_and, Bool.false_or]
      exact ih

/-- Lowercasing a character is idempotent. -/
theorem lowerChar_idem (c : Char) : lowerChar (lowerChar c) = lowerChar c := by
  have hfalse := isUpperAZ_lowerChar c
  rw [isUpperAZ, decide_eq_false_iff_not] at hfalse
  conv_lhs => rw [lowerChar]
  rw [if_neg hfalse]

/-- Mapping the idempotent lowercasing twice equals mapping it once. -/
theorem map_lowerChar_idem (l : List Char) :
    l.map (fun c => lowerChar (lowerChar c)) = l.map lowerChar := by
  induction l with
  | nil => rfl
  | cons c l ih => simp only [List.map, lowerChar_idem, ih]

/-- `str.lower()` is idempotent. -/
theorem pyLower_idem (s : String) : pyLower (pyLower s) = pyLower s := by
  unfold pyLower
  congr 1
  rw [List.map_map]
  exact map_lowerChar_idem s.data

/-- The relevance score the code accumulates equals the weighted-sum formula
of the specification. -/
theorem calculate_relevance_score_eq_formula (m : ConversationMemory) (cur : String) :
    calculate_relevance_score m cur = relevance_formula m cur := by
  unfold calculate_relevance_score relevance_formula keyword_overlap_spec theme_overlap_spec
    recency_bonus_spec emotion_bonus_spec
  dsimp only
  split_ifs <;> ring

/-- What `find_relevant_memories` returns: at most `limit` memories, all from
the input list with strictly positive relevance, in weakly descending score
order, containing every positive-score memory when at most `limit` of them
exist, and — the top-k selection — any positive-score memory it leaves out
is left out of a full result (length exactly `limit`) and scores no higher
than every memory it returns. -/
theorem find_relevant_memories_spec (memories : List ConversationMemory) (input : String)
    (k : Nat) :
    (find_relevant_memories memories input k).length ≤ k ∧
    (∀ m ∈ find_relevant_memories memories input k,
       m ∈ memories ∧ 0 < calculate_relevance_score m (pyLower input)) ∧
    (find_relevant_memories memories input k).Pairwise
      (fun a b => calculate_relevance_score b (pyLower input) ≤
        calculate_relevance_score a (pyLower input)) ∧
    ((memories.filter (fun m => 0 < calculate_relevance_score m (pyLower input))).length ≤ k →
      ∀ m ∈ memories, 0 < calculate_relevance_score m (pyLower input) →
        m ∈ find_relevant_memories memories input k) ∧
    (∀ m ∈ memories, 0 < calculate_relevance_score m (pyLower input) →
      m ∉ find_relevant_memories memories input k →
        (find_relevant_memories memories input k).length = k ∧
        ∀ m' ∈ find_relevant_memories memories input k,
          calculate_relevance_score m (pyLower input) ≤
            calculate_relevance_score m' (pyLower input)) := by
  unfold find_relevant_memories
  dsimp only
  have hperm := List.perm_insertionSort scoreGE
    (((memories.map (fun m => (m, calculate_relevance_score m (pyLower input))))).filter
      (fun p => 0 < p.2))
  have hsort := List.sorted_insertionSort scoreGE
    (((memories.map (fun m => (m, calculate_relevance_score m (pyLower input))))).filter
      (fun p => 0 < p.2))
  set f : ConversationMemory → ConversationMemory × ℚ :=
    fun m => (m, calculate_relevance_score m (pyLower input)) with hf
  set scored := ((memories.map f).filter (fun p => 0 < p.2)) with hscored
  set sorted := scored.insertionSort scoreGE with hsorted
  have hmem_scored : ∀ p ∈ scored, p.1 ∈ memories ∧
      p.2 = calculate_relevance_score p.1 (pyLower input) ∧ 0 < p.2 := by
    intro p hp
    rw [hscored] at hp
    rw [List.mem_filter] at hp
    obtain ⟨hmap, hpos⟩ := hp
    obtain ⟨m, hm, hfm⟩ := List.mem_map.mp hmap
    subst hfm
    exact ⟨hm, rfl, by simpa using hpos⟩
  have hmem_sorted : ∀ p ∈ sorted, p.1 ∈ memories ∧
      p.2 = calculate_relevance_score p.1 (pyLower input) ∧ 0 < p.2 := by
    intro p hp
    exact hmem_scored p (hperm.mem_iff.mp hp)
  refine ⟨?_, ?_, ?_, ?_, ?_⟩
  · simp only [List.length_map, List.length_take]
    exact min_le_left _ _
  · intro m hm
    obtain ⟨p, hp, hpm⟩ := List.mem_map.mp hm
    have hps : p ∈ sorted := (List.take_sublist k sorted).subset hp
    obtain ⟨h1, h2, h3⟩ := hmem_sorted p hps
    subst hpm
    exact ⟨h1, h2 ▸ h3⟩
  · rw [List.pairwise_map]
    have hpw : (sorted.take k).Pairwise scoreGE :=
      List.Pairwise.sublist (List.take_sublist k sorted) hsort
    refine hpw.imp_of_mem ?_
    intro a b ha hb hab
    have h1 := hmem_sorted a ((List.take_sublist k sorted).subset ha)
    have h2 := hmem_sorted b ((List.take_sublist k sorted).subset hb)
    rw [scoreGE] at hab
    rw [← h1.2.1, ← h2.2.1]
    exact hab
  · intro hlen m hm hpos
    have hfl : scored =
        (memories.filter (fun m => 0 < calculate_relevance_score m (pyLower input))).map f := by
      rw [hscored]
      rw [List.filter_map]
      rfl
    have hslen : sorted.length ≤ k := by
      rw [hperm.length_eq, hfl, List.length_map]
      exact hlen
    have htake : sorted.take k = sorted := List.take_of_length_le hslen
    have hmemf : f m ∈ scored := by
      rw [hfl]
      exact List.mem_map_of_mem f (List.mem_filter.mpr ⟨hm, by simpa using hpos⟩)
    rw [htake]
    exact List.mem_map_of_mem Prod.fst (hperm.mem_iff.mpr hmemf)
  · intro m hm hpos hnot
    have hmemf : f m ∈ scored :=
      List.mem_filter.mpr ⟨List.mem_map_of_mem f hm, by simpa using hpos⟩
    have hmsorted : f m ∈ sorted := hperm.mem_iff.mpr hmemf
    have hnottake : f m ∉ sorted.take k := by
      intro hc
      exact hnot (List.mem_map_of_mem Prod.fst hc)
    have hdrop : f m ∈ sorted.drop k := by
      have hsplit := (List.take_append_drop k sorted) ▸ hmsorted
      rcases List.mem_append.mp hsplit with h | h
      · exact absurd h hnottake
      · exact h
    have hklt : k < sorted.length := by
      by_contra hle
      push_neg at hle
      rw [List.drop_eq_nil_of_le hle] at hdrop
      simp at hdrop
    constructor
    · simp only [List.length_map, List.length_take]
      exact min_eq_left (le_of_lt hklt)
    · intro m' hm'
      obtain ⟨p, hp, hpm⟩ := List.mem_map.mp hm'
      have hfull := hsort
      rw [← List.take_append_drop k sorted] at hfull
      have hR : scoreGE p (f m) :=
        (List.pairwise_append.mp hfull).2.2 p hp (f m) hdrop
      obtain ⟨h1, h2, h3⟩ := hmem_sorted p ((List.take_sublist k sorted).subset hp)
      rw [scoreGE] at hR
      subst hpm
      rw [← h2]
      exact hR

/-- Removing one key of an association list leaves every other lookup. -/
theorem lookup_dremove_ne (d : Doc) (k k' : String) (h : (k == k') = false) :
    (dremove d k').lookup k = d.lookup k := by
  induction d with
  | nil => rfl
  | cons p d ih =>
    obtain ⟨k1, v1⟩ := p
    by_cases h1 : (k1 == k') = true
    · have hk1 : k1 = k' := by simpa using h1
      have h2 : (k == k1) = false := by rw [hk1]; exact h
      rw [dremove, List.filter_cons]
      simp only [h1, Bool.not_true, if_false]
      rw [List.lookup]
      simp only [h2, if_false]
      exact ih
    · have h1f : (k1 == k') = false := by simpa using h1
      rw [dremove, List.filter_cons]
      simp only [h1f, Bool.not_false, if_true]
      rw [List.lookup, List.lookup]
      cases hk : (k == k1) with
      | true => rfl
      | false => exact ih

/-- Setting a key makes its lookup the new value. -/
theorem lookup_dset_self (d : Doc) (k : String) (v : Value) :
    (dset d k v).lookup k = some v := by
  simp [dset, List.lookup]

/-- Setting one key leaves every other lookup. -/
theorem lookup_dset_ne (d : Doc) (k k' : String) (v : Value) (h : (k == k') = false) :
    (dset d k' v).lookup k = d.lookup k := by
  rw [dset, List.lookup]
  simp only [h, if_false]
  exact lookup_dremove_ne d k k' h

/-- `dget` after `dset` on the same key. -/
theorem dget_dset_self (d : Doc) (k : String) (v dflt : Value) :
    dget (dset d k v) k dflt = v := by
  simp [dget, lookup_dset_self]

/-- `dget` after `dset` on another key. -/
theorem dget_dset_ne (d : Doc) (k k' : String) (v dflt : Value) (h : (k == k') = false) :
    dget (dset d k' v) k dflt = dget d k dflt := by
  simp [dget, lookup_dset_ne _ _ _ _ h]

/-- What one `capture_explicit_feedback` call does to an existing signal
document: the resonance is recomputed from the three base fields of the
document (unchanged when one of them is non-numeric, since the `TypeError`
is swallowed), the feedback label is overwritten, and the base fields that
feed the recomputation are untouched. -/
theorem resOf_afterFeedback (d : Doc) (fb : String) (det : Option String) :
    resOf (afterFeedback d fb det) =
      (match baseReads d with
       | (some t, some sh, some fd) =>
         some (.num (calculate_resonance_score t sh fd (some fb)))
       | _ => resOf d) ∧
    fbOf (afterFeedback d fb det) = some (.s fb) ∧
    baseReads (afterFeedback d fb det) = baseReads d := by
  unfold afterFeedback capture_explicit_feedback baseReads
  dsimp only
  cases det with
  | none =>
    simp only [List.append_nil, dsetAll, List.foldl]
    try simp [dget_dset_ne]
    rcases h1 : numOf (dget d "time_to_reply" (Value.num 60)) with _ | t <;>
      rcases h2 : numOf (dget d "emotional_shift" (Value.num 0)) with _ | sh <;>
        rcases h3 : numOf (dget d "followup_depth" (Value.num 3)) with _ | fd <;>
          simp only [h1, h2, h3] <;>
            (try split_ifs) <;>
              simp [resOf, fbOf, lookup_dset_ne, lookup_dset_self, dget_dset_ne, h1, h2, h3]
  | some s =>
    by_cases hd : s ≠ "" <;>
      simp only [hd, if_true, if_false, dsetAll, List.foldl, List.cons_append, List.nil_append] <;>
      (try simp [dget_dset_ne]) <;>
      (rcases h1 : numOf (dget d "time_to_reply" (Value.num 60)) with _ | t <;>
        rcases h2 : numOf (dget d "emotional_shift" (Value.num 0)) with _ | sh <;>
          rcases h3 : numOf (dget d "followup_depth" (Value.num 3)) with _ | fd <;>
            simp only [h1, h2, h3] <;>
              (try split_ifs) <;>
                simp [resOf, fbOf, lookup_dset_ne, lookup_dset_self, dget_dset_ne, h1, h2, h3])

/-- A signal document freshly written by `capture_user_reply` never carries
an `emotional_shift` field, and the three fields the later feedback
recomputation reads are the stored reply time, the 0 default for the
missing `emotional_shift`, and the reply depth. -/
theorem afterReply_signal_fields (uid nowId nowIso msg : String) (ea0 : Doc) (mu : Bool)
    (style reply : String) (ea : Doc) (t : ℚ) :
    (afterReply (create_interaction_signal uid nowId nowIso msg ea0 mu style) reply ea t).lookup
        "emotional_shift" = none ∧
    baseReads (afterReply (create_interaction_signal uid nowId nowIso msg ea0 mu style) reply ea t)
      = (some t, some 0, some ((analyze_message_depth reply : ℚ))) := by
  unfold afterReply capture_user_reply baseReads
  dsimp only
  simp only [dsetAll, List.foldl, Option.getD_some]
  constructor
  · simp [lookup_dset_ne, create_interaction_signal, List.lookup]
  · simp [dget_dset_ne, dget_dset_self, dget, lookup_dset_ne, lookup_dset_self,
      create_interaction_signal, List.lookup, numOf]

/-! ## The claims -/

/-- C1, counterexample: with the OpenAI client unconfigured,
`orchestrate_response` returns a bare string (the configuration apology),
not a structured response object, so the claim as stated fails. -/
theorem C1_counterexample :
    (orchestrate_response envNoClient "hello").isObj = false ∧
    orchestrate_response envNoClient "hello" = .plain configApology :=
  ⟨rfl, rfl⟩

/-- C1 (amended): whenever the OpenAI client is configured,
`orchestrate_response` returns a structured response object and never
raises; if the generative call fails, the object is the graceful fallback,
whose response is the fixed apology string and whose `strategy_used` is
`"fallback"`. -/
theorem C1_theorem (env : OrchEnv) (input : String) (hc : env.clientConfigured = true) :
    (∃ r : OrchObj, orchestrate_response env input = .obj r) ∧
    (∀ e, env.llm = .error e → orchestrate_response env input = .obj fallbackObj) ∧
    fallbackObj.response = fallbackApology ∧
    fallbackObj.strategy_used = some "fallback" := by
  unfold orchestrate_response
  rw [hc]
  simp only [Bool.not_true, Bool.false_eq_true, if_false]
  refine ⟨?_, ?_, rfl, rfl⟩
  · cases hl : env.llm with
    | error e => exact ⟨fallbackObj, rfl⟩
    | ok raw => exact ⟨orchestrate_success_obj env input raw, rfl⟩
  · intro e he
    rw [he]

/-- C1, witness: a failing generative call in a configured environment
yields exactly the fallback object. -/
theorem C1_witness :
    orchestrate_response envLlmFail "hello" = OrchResult.obj fallbackObj :=
  (C1_theorem envLlmFail "hello" rfl).2.1 "APIError" rfl

/-- C2, counterexample: on the scenario message the analyzer yields
"neutral" (the anxious lexicon does not contain the word "anxious"), the
strategy the selector returns has no `approach` key at all, and the
orchestrator's `memory_used` flag is `true` even with no stored history. -/
theorem C2_counterexample :
    analyze_primary_tone scenario_message = "neutral" ∧
    (get_adaptive_strategy true).lookup "approach" = none ∧
    (orchestrate_response envScenario scenario_message).memoryUsed = some true := by
  refine ⟨by decide, rfl, rfl⟩

/-- C2 (amended): for "I feel really anxious about work today" with no
stored history, the primary tone is "neutral", the themes are
`["work_stress", "anxiety"]` (a work theme is extracted), the selector
returns `{'strategy': 'default', 'confidence': 0.5}` (the
gentle_grounding/0.7 default lives in the unreached
`_calculate_adaptive_strategy`), and the returned object has
`strategy_used = None`, `confidence = 0.5` and `memory_used = true`. -/
theorem C2_theorem :
    analyze_primary_tone scenario_message = "neutral" ∧
    extract_themes_from_text scenario_message = ["work_stress", "anxiety"] ∧
    get_adaptive_strategy true = [("strategy", .s "default"), ("confidence", .num (1/2))] ∧
    calculate_adaptive_strategy [] [] [] =
      [("approach", .s "gentle_grounding"), ("memory_use", .s "moderate"),
       ("response_style", .s "warm_validation"), ("message_length", .s "medium"),
       ("confidence", .num (7/10))] ∧
    orchestrate_response envScenario scenario_message =
      .obj { response := "resp", signal_id := some "sig", strategy_used := none,
             confidence := some (1/2), memory_used := true, learning_enabled := true } := by
  refine ⟨by decide, by decide, rfl, rfl, rfl⟩

/-- C3, counterexample: at `elapsed_seconds = 300` the timing component is
the 0.2 floor (not ≈1.0), and a depth-3 reply with a neutral emotional shift
yields resonance 0.44, which is in the lower half of [0, 1]. -/
theorem C3_counterexample :
    timing_score 300 = 1/5 ∧
    ¬ ((9:ℚ)/10 ≤ timing_score 300) ∧
    analyze_message_depth "I realize now" = 3 ∧
    (capture_user_reply true (some signalStarted) "I realize now" eaNeutral 300).1
      = some (11/25) ∧
    ¬ ((1:ℚ)/2 ≤ 11/25) := by
  refine ⟨?_, ?_, by decide, ?_, by norm_num⟩
  · norm_num [timing_score, qmin, qmax]
  · norm_num [timing_score, qmin, qmax]
  · norm_num +decide [capture_user_reply, calculate_emotional_shift, calculate_resonance_score,
      qmin, qmax, signalStarted, eaNeutral, create_interaction_signal, dget, numOf,
      analyze_message_depth]

/-- C3 (amended): for a reply at 300 seconds containing the depth marker
"realize", the timing component equals the formula's 0.2 floor, the depth
component is at least 0.6, the resonance equals
`clamp(0.06 + 0.4·emotion_score + 0.3·depth_score)`, and in the neutral
shift, depth-3 case it is 0.44 — the lower half of [0, 1]. -/
theorem C3_theorem (reply : String) (sh : ℚ) (h : isSub "realize" (pyLower reply) = true) :
    timing_score 300 = 1/5 ∧
    3 ≤ analyze_message_depth reply ∧
    (3:ℚ)/5 ≤ (analyze_message_depth reply : ℚ) / 5 ∧
    calculate_resonance_score 300 sh ((analyze_message_depth reply : ℚ)) none =
      qmin 1 (qmax 0 (3/50 + emotion_score sh * (4/10) +
        ((analyze_message_depth reply : ℚ) / 5) * (3/10))) ∧
    calculate_resonance_score 300 0 3 none = 11/25 := by
  have hne : ¬ (reply = "") := by
    intro he
    rw [he] at h
    exact absurd h (by decide)
  have hdepth : 3 ≤ analyze_message_depth reply := by
    unfold analyze_message_depth
    rw [if_neg hne]
    dsimp only
    simp only [depth_indicators, List.lookup]
    simp only [show (("medium" : String) == "shallow") = false from by decide,
      show (("deep" : String) == "shallow") = false from by decide,
      show (("deep" : String) == "medium") = false from by decide,
      show (("very_deep" : String) == "shallow") = false from by decide,
      show (("very_deep" : String) == "medium") = false from by decide,
      show (("very_deep" : String) == "deep") = false from by decide,
      show (("profound" : String) == "shallow") = false from by decide,
      show (("profound" : String) == "medium") = false from by decide,
      show (("profound" : String) == "deep") = false from by decide,
      show (("profound" : String) == "very_deep") = false from by decide,
      beq_self_eq_true, if_true, if_false]
    simp only [List.any_cons, List.any_nil, h, Bool.true_or, Bool.or_true, if_true]
    split_ifs <;> decide
  refine ⟨by norm_num [timing_score, qmin, qmax], hdepth, ?_, ?_, ?_⟩
  · have h3 : (3:ℚ) ≤ (analyze_message_depth reply : ℚ) := by exact_mod_cast hdepth
    linarith
  · unfold calculate_resonance_score emotion_score
    dsimp only
    simp only [show (none = some "perfect") = False from by simp,
      show (none = some "helpful") = False from by simp,
      show (none = some "not_quite") = False from by simp,
      show (none = some "unhelpful") = False from by simp, if_false]
    have ht : qmin 1 (qmax (2/10) ((300 - (300:ℚ)) / 300)) = 1/5 := by
      norm_num [qmin, qmax]
    rw [ht]
    congr 1
    congr 1
    ring
  · norm_num +decide [calculate_resonance_score, qmin, qmax]

/-- C3, witness: the amended claim at the concrete reply "I realize now"
with a neutral emotional shift. -/
theorem C3_witness :
    timing_score 300 = 1/5 ∧
    3 ≤ analyze_message_depth "I realize now" ∧
    (3:ℚ)/5 ≤ (analyze_message_depth "I realize now" : ℚ) / 5 ∧
    calculate_resonance_score 300 0 ((analyze_message_depth "I realize now" : ℚ)) none =
      qmin 1 (qmax 0 (3/50 + emotion_score 0 * (4/10) +
        ((analyze_message_depth "I realize now" : ℚ) / 5) * (3/10))) ∧
    calculate_resonance_score 300 0 3 none = 11/25 :=
  C3_theorem "I realize now" 0 (by decide)

/-- C4: `capture_explicit_feedback` is idempotent in effect and
last-write-wins: applying the same label twice leaves the stored resonance
of one application, and after two calls with different labels both the
resonance and the stored label equal those of the most recent call alone
(never an average), because the recomputation reads only base fields the
feedback path never writes. -/
theorem C4_theorem (d : Doc) (a b : String) (det det' : Option String) :
    resOf (afterFeedback (afterFeedback d a det) a det) = resOf (afterFeedback d a det) ∧
    resOf (afterFeedback (afterFeedback d a det) b det') = resOf (afterFeedback d b det') ∧
    fbOf (afterFeedback (afterFeedback d a det) b det') = fbOf (afterFeedback d b det') := by
  obtain ⟨r1, f1, b1⟩ := resOf_afterFeedback d a det
  obtain ⟨r2, f2, b2⟩ := resOf_afterFeedback (afterFeedback d a det) a det
  obtain ⟨r3, f3, b3⟩ := resOf_afterFeedback (afterFeedback d a det) b det'
  obtain ⟨r4, f4, b4⟩ := resOf_afterFeedback d b det'
  refine ⟨?_, ?_, ?_⟩
  · rw [r2, b1]
    rcases h : baseReads d with ⟨t?, s?, f?⟩
    rcases t? with _ | t <;> rcases s? with _ | sh <;> rcases f? with _ | fd <;>
      simp only [h] <;>
      first
        | rfl
        | (rw [r1, h])
  · rw [r3, b1, r4]
    rcases h : baseReads d with ⟨t?, s?, f?⟩
    rcases t? with _ | t <;> rcases s? with _ | sh <;> rcases f? with _ | fd <;>
      simp only [h] <;>
      first
        | rfl
        | (rw [r1, h])
  · rw [f3, f4]

/-- C5, counterexample: the strategy the selector returns — with learning
enabled or disabled — is `{'strategy': 'default', 'confidence': 0.5}`; it
has no `approach` key (so never `approach = "gentle_grounding"`) and its
confidence is 0.5, not 0.7. -/
theorem C5_counterexample :
    (get_adaptive_strategy true).lookup "approach" = none ∧
    (get_adaptive_strategy false).lookup "approach" = none ∧
    dget (get_adaptive_strategy true) "confidence" .null = .num (1/2) ∧
    Value.num (1/2) ≠ Value.num (7/10) := by
  refine ⟨rfl, rfl, rfl, ?_⟩
  intro hv
  injection hv with hv'
  exact absurd hv' (by norm_num)

/-- C5 (amended): `get_adaptive_strategy` never blocks or raises and always
returns the static `{'strategy': 'default', 'confidence': 0.5}` dict — with
learning disabled directly, and with learning enabled through its exception
handler, because the body calls the undefined `_get_resonance_patterns`;
the gentle_grounding/0.7 default is what `_calculate_adaptive_strategy`
itself produces for an empty history and no preferences. -/
theorem C5_theorem (learning : Bool) (pats : List Unit) :
    get_adaptive_strategy learning =
      [("strategy", .s "default"), ("confidence", .num (1/2))] ∧
    calculate_adaptive_strategy [] [] pats =
      [("approach", .s "gentle_grounding"), ("memory_use", .s "moderate"),
       ("response_style", .s "warm_validation"), ("message_length", .s "medium"),
       ("confidence", .num (7/10))] := by
  refine ⟨?_, rfl⟩
  cases learning <;> rfl

/-- C6: the relevance score of every memory equals
`0.3·keyword_overlap + 0.5·theme_overlap + recency_bonus + 0.4·same-emotion`,
and retrieval returns the top-k positive-score memories: no more than `k`,
each from the stored list with strictly positive score, in descending score
order, all of them whenever at most `k` score positively, and any
positive-score memory left out is left out of a full (length-`k`) result and
scores no higher than every returned memory. -/
theorem C6_theorem (memories : List ConversationMemory) (input : String) (k : Nat)
    (m : ConversationMemory) :
    calculate_relevance_score m (pyLower input) = relevance_formula m (pyLower input) ∧
    (find_relevant_memories memories input k).length ≤ k ∧
    (∀ m' ∈ find_relevant_memories memories input k,
       m' ∈ memories ∧ 0 < calculate_relevance_score m' (pyLower input)) ∧
    (find_relevant_memories memories input k).Pairwise
      (fun a b => calculate_relevance_score b (pyLower input) ≤
        calculate_relevance_score a (pyLower input)) ∧
    ((memories.filter (fun m' => 0 < calculate_relevance_score m' (pyLower input))).length ≤ k →
      ∀ m' ∈ memories, 0 < calculate_relevance_score m' (pyLower input) →
        m' ∈ find_relevant_memories memories input k) ∧
    (∀ m' ∈ memories, 0 < calculate_relevance_score m' (pyLower input) →
      m' ∉ find_relevant_memories memories input k →
        (find_relevant_memories memories input k).length = k ∧
        ∀ m'' ∈ find_relevant_memories memories input k,
          calculate_relevance_score m' (pyLower input) ≤
            calculate_relevance_score m'' (pyLower input)) := by
  obtain ⟨h1, h2, h3, h4, h5⟩ := find_relevant_memories_spec memories input k
  exact ⟨calculate_relevance_score_eq_formula m _, h1, h2, h3, h4, h5⟩

/-- C7, counterexample: in "tired worried" the weary and anxious categories
tie at the maximal count 1, yet the primary tone is "weary", not
"neutral". -/
theorem C7_counterexample :
    ((tone_scores "tired worried").filter (fun p => p.2 == 1)).map Prod.fst
      = ["weary", "anxious"] ∧
    (tone_scores "tired worried").all (fun p => decide (p.2 ≤ 1)) = true ∧
    detect_primary_tone "tired worried" = "weary" := by
  refine ⟨by decide, by decide, by decide⟩

/-- C7 (amended): the primary tone is the earliest tone category achieving
the highest lexicon-hit count (ties are broken by the fixed category order,
not to "neutral"); only the all-zero case defaults to "neutral". -/
theorem C7_theorem (text : String) :
    detect_primary_tone text = firstMaxTone text ∧
    ((tone_scores text).all (fun p => p.2 == 0) = true →
      detect_primary_tone text = "neutral") ∧
    ((tone_scores text).all (fun p => p.2 == 0) = false →
      ∃ q ∈ tone_scores text, q.1 = detect_primary_tone text ∧
        ∀ p ∈ tone_scores text, p.2 ≤ q.2) := by
  refine ⟨detect_primary_tone_eq_firstMaxTone text, ?_, ?_⟩
  · intro h
    unfold detect_primary_tone
    simp only [h, if_true]
  · intro h
    rw [detect_primary_tone_eq_firstMaxTone]
    unfold firstMaxTone
    simp only [h, Bool.false_eq_true, if_false]
    cases hq : firstMax (tone_scores text) with
    | none =>
      have hsome := firstMax_isSome (tone_scores text)
        (by simp [tone_scores, TONE_INDICATORS])
      rw [hq] at hsome
      simp at hsome
    | some q =>
      obtain ⟨hmem, hmax⟩ := firstMax_mem_max _ q hq
      exact ⟨q, hmem, rfl, hmax⟩

/-- C8, counterexample: "AA" contains a run of 2+ uppercase letters, yet the
pipeline intensity of "AA" equals that of "aa" (both the 0.3 baseline): the
uppercase increment is never applied because the text is lowercased before
the intensity calculation, so the message does not score strictly higher. -/
theorem C8_counterexample :
    hasUpperRun "AA".data = true ∧
    analyze_intensity "AA" = 3/10 ∧
    analyze_intensity "aa" = 3/10 := by
  refine ⟨by decide, ?_, ?_⟩ <;>
    norm_num +decide [analyze_intensity, calculate_emotional_intensity, qmin]

/-- C8 (amended): the pipeline intensity equals the clamp to [0, 1] of the
0.3 baseline plus the intensifier, exclamation, repetition and profanity
increments evaluated on the lowercased message; the uppercase-run increment
never fires (a lowercased text has no uppercase run), so intensity is
invariant under lowercasing the message. -/
theorem C8_theorem (text : String) :
    analyze_intensity text =
      qmin 1 ((3/10)
        + (if INTENSITY_HIGH.any (fun m => isSub m (pyLower text)) then (3:ℚ)/10 else 0)
        + (if 0 < countChar '!' (pyLower text) then
             qmin (2/10) ((countChar '!' (pyLower text) : ℚ) * (1/10)) else 0)
        + (if hasTripleRepeat (pyLower text).data then (1:ℚ)/10 else 0)
        + (if SWEAR_WORDS.any (fun w => isSub w (pyLower text)) then (2:ℚ)/10 else 0)) ∧
    hasUpperRun (pyLower text).data = false ∧
    analyze_intensity text = analyze_intensity (pyLower text) := by
  have hU : hasUpperRun (pyLower text).data = false := hasUpperRun_map_lower text.data
  refine ⟨?_, hU, ?_⟩
  · unfold analyze_intensity calculate_emotional_intensity
    dsimp only
    simp only [hU, Bool.false_eq_true, if_false]
    split_ifs <;> (first | rfl | (congr 1; ring))
  · unfold analyze_intensity
    rw [pyLower_idem]

/-- C9: on an unknown signal id both capture operations return their failure
indicator (`None` for the reply capture, `False` for the feedback capture)
with no state change, and — being total functions of the store — never
propagate an exception. -/
theorem C9_theorem (reply : String) (ea : Doc) (t : ℚ) (fb : String) (det : Option String) :
    capture_user_reply true none reply ea t = (none, none) ∧
    capture_explicit_feedback true none fb det = (false, none) :=
  ⟨rfl, rfl⟩

/-- C10: `capture_user_reply` never persists an `emotional_shift` field, so
the feedback recomputation always reads its default 0; two runs that differ
only in the post-reply emotional analysis handed to `capture_user_reply`
produce the same feedback-recomputed resonance. -/
theorem C10_theorem (uid nowId nowIso msg : String) (ea0 : Doc) (mu : Bool)
    (style reply : String) (ea1 ea2 : Doc) (t : ℚ) (fb : String) (det : Option String) :
    (afterReply (create_interaction_signal uid nowId nowIso msg ea0 mu style) reply ea1 t).lookup
        "emotional_shift" = none ∧
    resOf (afterFeedback
        (afterReply (create_interaction_signal uid nowId nowIso msg ea0 mu style) reply ea1 t)
        fb det)
      = resOf (afterFeedback
          (afterReply (create_interaction_signal uid nowId nowIso msg ea0 mu style) reply ea2 t)
          fb det) := by
  obtain ⟨hl1, hb1⟩ := afterReply_signal_fields uid nowId nowIso msg ea0 mu style reply ea1 t
  obtain ⟨hl2, hb2⟩ := afterReply_signal_fields uid nowId nowIso msg ea0 mu style reply ea2 t
  refine ⟨hl1, ?_⟩
  obtain ⟨r1, f1, b1⟩ := resOf_afterFeedback
    (afterReply (create_interaction_signal uid nowId nowIso msg ea0 mu style) reply ea1 t) fb det
  obtain ⟨r2, f2, b2⟩ := resOf_afterFeedback
    (afterReply (create_interaction_signal uid nowId nowIso msg ea0 mu style) reply ea2 t) fb det
  rw [r1, r2, hb1, hb2]

end Zentrafuge
